import Mathlib

/-!
Shallow embedding of the `advanced-retry` library (TypeScript) and proofs
about it.  The definitions mirror, construct by construct, the source files
`src/retry.ts`, `src/resolver/delayed-retry-resolver.ts` and
`src/filter/base.ts` of the repository.  Asynchrony is determinized: the
operation is a function of its invocation index and the carried context, the
abort signal is an oracle consulted at the exact program points where the
source reads `abortSignal.aborted`, and the two `do/while` loops of
`handleRetry` become fuel-indexed recursions.
-/

/-- `RetryContext` of `retry.ts`: `{ data?: C }`; `data: none` is the
JavaScript `{data: undefined}`. -/
structure RetryContext (X : Type) where
  data : Option X
deriving DecidableEq, Repr

/-- `ErrorResolution` of `retry.ts`: `{remainingAttempts, unrecoverable,
context}`.  `remainingAttempts` is a JavaScript number used as an integer. -/
structure ErrorResolution (X : Type) where
  remainingAttempts : Int
  unrecoverable : Bool
  context : RetryContext X

/-- `ErrorResolverBase` of `retry.ts`, determinized: a resolver receives the
raised error, the per-resolver attempt counter and the carried context and
returns an `ErrorResolution`.  (The `abortSignal` argument of the source is
only forwarded to user code and never read by the engine, so it is dropped.) -/
def ErrorResolverBase (X E : Type) : Type :=
  E → Nat → RetryContext X → ErrorResolution X

/-- Outcome of `handleRetry`:
`success`/`failure` are the returned objects (carrying `totalAttempts`),
`abortedThrow` is `throw new Error('Operation aborted')` (which carries no
attempt count), `unexpectedExit` is the `throw` on the final line of
`handleRetry`, and `outOfFuel` is an artifact of the fuel-indexed embedding
(never reached when enough fuel is supplied). -/
inductive RetryOutcome (T E : Type) where
  | success (result : T) (totalAttempts : Nat)
  | failure (error : E) (totalAttempts : Nat)
  | abortedThrow
  | unexpectedExit
  | outOfFuel
deriving DecidableEq, Repr

/-- Exit of the inner `do/while` loop of `handleRetry`: either a terminal
outcome (`done`), or the loop fell through with `remainingAttempts <= 0`
(`next`, carrying the running `totalAttempts` and abort-check counter). -/
inductive InnerExit (T E : Type) where
  | done (o : RetryOutcome T E)
  | next (totalAttempts : Nat) (checks : Nat)
deriving DecidableEq, Repr

/-- The inner `do { ... } while (remainingAttempts > 0)` loop of
`handleRetry` (retry.ts lines 125-185), one source iteration per fuel unit.
`op k c` is the operation's behaviour at its `k`-th invocation (0-based,
`k = totalAttempts` before the increment) with context `c`; `ab` is the
abort-signal oracle, consulted at consecutive indices in the order the
source reads `abortSignal.aborted`; `cur` is `currentResolver`;
`resolverIndex` is the source's value after the `resolverIndex++` on line
120; `len` is `errorResolvers.length`. -/
def innerLoop (op : Nat → RetryContext X → Except E T) (ab : Nat → Bool)
    (cur : Option (ErrorResolverBase X E)) (resolverIndex len : Nat) :
    Nat → Int → Nat → Nat → Nat → RetryContext X → InnerExit T E
  | 0, _, _, _, _, _ => .done .outOfFuel
  | fuel + 1, remaining, retries, totalAttempts, checks, ctx =>
    if ab checks then .done .abortedThrow
    else
      match op totalAttempts ctx with
      | .ok v => .done (.success v (totalAttempts + 1))
      | .error e =>
        if ab (checks + 1) then .done .abortedThrow
        else
          match cur with
          | none => .done (.failure e (totalAttempts + 1))
          | some r =>
            if remaining = 0 ∧ len ≤ resolverIndex then
              .done (.failure e (totalAttempts + 1))
            else
              let res := r e retries ctx
              if res.unrecoverable then .done (.failure e (totalAttempts + 1))
              else
                if res.remainingAttempts ≤ 0 ∧ len - 1 ≤ resolverIndex then
                  .done (.failure e (totalAttempts + 1))
                else
                  if res.remainingAttempts > 0 then
                    innerLoop op ab cur resolverIndex len fuel
                      res.remainingAttempts (retries + 1) (totalAttempts + 1)
                      (checks + 2) res.context
                  else .next (totalAttempts + 1) (checks + 2)

/-- The outer `do { ... } while (resolverIndex < errorResolvers.length)`
loop of `handleRetry` (retry.ts lines 115-186).  Each iteration picks
`currentResolver`, increments `resolverIndex` and runs the inner loop with
`remainingAttempts = 1`, `resolverRetries = 0` and a fresh context
`{data: undefined}`. -/
def outerLoop (op : Nat → RetryContext X → Except E T) (ab : Nat → Bool)
    (resolvers : List (ErrorResolverBase X E)) (ifuel : Nat) :
    Nat → Nat → Nat → Nat → RetryOutcome T E
  | 0, _, _, _ => .outOfFuel
  | ofuel + 1, resolverIndex, totalAttempts, checks =>
    match innerLoop op ab (resolvers.get? resolverIndex) (resolverIndex + 1)
        resolvers.length ifuel 1 0 totalAttempts checks ⟨none⟩ with
    | .done o => o
    | .next ta ch =>
      if resolverIndex + 1 < resolvers.length then
        outerLoop op ab resolvers ifuel ofuel (resolverIndex + 1) ta ch
      else .unexpectedExit

/-- `handleRetry` of `retry.ts` (lines 99-189): start the outer loop at
`resolverIndex = 0`, `totalAttempts = 0`.  `ifuel` bounds the number of
iterations of each inner loop; the outer loop runs at most
`length + 1` source iterations, so that bound is supplied exactly. -/
def handleRetry (op : Nat → RetryContext X → Except E T) (ab : Nat → Bool)
    (resolvers : List (ErrorResolverBase X E)) (ifuel : Nat) :
    RetryOutcome T E :=
  outerLoop op ab resolvers ifuel (resolvers.length + 1) 0 0 0

/-- `ErrorFilter` of `filter/base.ts`: an object with a single predicate
field.  (The filter module names the field `canHandle`; the delayed resolver
file refers to the same single field as `canHandleError`.) -/
structure ErrorFilter (X E : Type) where
  canHandle : E → Nat → RetryContext X → Bool

/-- The argument type `ErrorFilter | CanHandleErrorFunction` accepted by the
filter combinators and resolver constructors: either a bare predicate
function or a filter object. -/
inductive FilterArg (X E : Type) where
  | fn (f : E → Nat → RetryContext X → Bool)
  | obj (f : ErrorFilter X E)

/-- `toErrorFilter` of `filter/base.ts` (lines 22-29): wrap a bare function,
pass a filter object through. -/
def toErrorFilter : FilterArg X E → ErrorFilter X E
  | .fn f => ⟨f⟩
  | .obj f => f

/-- The inline dispatch the combinators perform on each member:
`typeof filter === 'function' ? filter(e,a,c) : filter.canHandle(e,a,c)`. -/
def applyFilterArg : FilterArg X E → E → Nat → RetryContext X → Bool
  | .fn g, e, a, c => g e a c
  | .obj g, e, a, c => g.canHandle e a c

/-- `allFilters` of `filter/base.ts` (lines 110-123): `filters.every(...)`. -/
def allFilters (filters : List (FilterArg X E)) : ErrorFilter X E :=
  ⟨fun e a c => filters.all fun f => applyFilterArg f e a c⟩

/-- `anyFilters` of `filter/base.ts` (lines 129-142): `filters.some(...)`. -/
def anyFilters (filters : List (FilterArg X E)) : ErrorFilter X E :=
  ⟨fun e a c => filters.any fun f => applyFilterArg f e a c⟩

/-- Modelled from the spec: `noneFilters` is part of the public filter API
(its tests live in `test/filter/base.spec.ts`) but its definition is not
among the provided sources.  Per the spec it is "true iff no filter returns
true; short-circuits on first true (negation of `any`)". -/
def noneFilters (filters : List (FilterArg X E)) : ErrorFilter X E :=
  ⟨fun e a c => !(filters.any fun f => applyFilterArg f e a c)⟩

/-- `DelayPolicy` of `delayed-retry-resolver.ts`.  JavaScript numbers are
modelled as rationals (delays) and an integer (`maxRetries`); the optional
fields default to `undefined = none`.  `customDelay` receives the attempt,
error and context (the source also passes the configuration itself; that
self-reference is dropped, the function is free to close over it). -/
structure DelayPolicy (X E : Type) where
  maxRetries : Int
  initialDelayMs : Option ℚ := none
  maxDelayMs : Option ℚ := none
  backoffMultiplier : Option ℚ := none
  customDelay : Option (Nat → E → RetryContext X → ℚ) := none

/-- The backoff product `(initialDelayMs ?? 0) * (attempt + 1) *
(backoffMultiplier ?? 1)`, written twice in the source's nested ternary. -/
def delayFormula (cfg : DelayPolicy X E) (attempt : Nat) : ℚ :=
  cfg.initialDelayMs.getD 0 * ((attempt : ℚ) + 1) * cfg.backoffMultiplier.getD 1

/-- The `delay` computed on lines 65-82 of `delayed-retry-resolver.ts`:
`customDelay` if present, else the ternary `configuration.maxDelayMs ? min(...) : ...`.
JavaScript truthiness makes `maxDelayMs = 0` take the no-cap branch. -/
def computeDelay (cfg : DelayPolicy X E) (attempt : Nat) (e : E)
    (ctx : RetryContext X) : ℚ :=
  match cfg.customDelay with
  | some f => f attempt e ctx
  | none =>
    match cfg.maxDelayMs with
    | some m =>
      if m = 0 then delayFormula cfg attempt
      else min (delayFormula cfg attempt) m
    | none => delayFormula cfg attempt

/-- The clamp performed by `sleep` (delayed-retry-resolver.ts line 10):
`if (ms < 0) ms = 0`.  The value is the duration actually slept. -/
def sleepMs (ms : ℚ) : ℚ := if ms < 0 then 0 else ms

/-- The filter gate of `delayErrorResolver` (lines 61-64):
`!canHandleError || toErrorFilter(canHandleError).canHandleError(e, a, c)`. -/
def delayMatches (canHandleError : Option (FilterArg X E)) (e : E)
    (attempt : Nat) (ctx : RetryContext X) : Bool :=
  match canHandleError with
  | none => true
  | some f => (toErrorFilter f).canHandle e attempt ctx

/-- `delayErrorResolver` of `delayed-retry-resolver.ts` (lines 52-95),
instrumented with the duration it sleeps: on a filter match it sleeps the
clamped computed delay and returns `remainingAttempts = maxRetries - attempt`
with context `{data: undefined}`; otherwise it declines with
`remainingAttempts = -1` (and does not sleep, `none`). -/
def delayErrorResolverFull (configuration : DelayPolicy X E)
    (canHandleError : Option (FilterArg X E)) (e : E) (attempt : Nat)
    (ctx : RetryContext X) : ErrorResolution X × Option ℚ :=
  if delayMatches canHandleError e attempt ctx then
    (⟨configuration.maxRetries - (attempt : Int), false, ⟨none⟩⟩,
      some (sleepMs (computeDelay configuration attempt e ctx)))
  else (⟨-1, false, ⟨none⟩⟩, none)

/-- `delayErrorResolver` as the `ErrorResolverBase` handed to the engine
(the slept duration is not part of the resolution). -/
def delayErrorResolver (configuration : DelayPolicy X E)
    (canHandleError : Option (FilterArg X E)) : ErrorResolverBase X E :=
  fun e attempt ctx =>
    (delayErrorResolverFull configuration canHandleError e attempt ctx).1

/-- The errors `executeWithRetry` can surface: the operation's own error
(attached by `handleRetry`), the engine's thrown `Error('Operation aborted')`
/ `Error('Operation timed out')` / unexpected-exit errors, and the fuel
artifact of the embedding. -/
inductive EngineError (E : Type) where
  | opErr (e : E)
  | abortedErr
  | timedOutErr
  | unexpectedErr
  | fuelErr
deriving DecidableEq, Repr

/-- `RetryResult` of `retry.ts` (lines 90-97), without the wall-clock
`totalDurationMs` field. -/
structure RetryResult (T E : Type) where
  success : Bool
  result : Option T
  error : Option (EngineError E)
  totalAttemptsToSucceed : Option Nat
  totalAttempts : Option Nat
deriving DecidableEq, Repr

/-- Which event settles the promise raced inside `executeWithRetry` first:
the `handleRetry` call completing (resolving with a result object or
rejecting with a thrown error), or the `overallTimeout` timer rejecting
with `Error('Operation timed out')`. -/
inductive EngineEvent (T E : Type) where
  | completed (o : RetryOutcome T E)
  | timedOut
deriving DecidableEq, Repr

/-- Result assembly of `executeWithRetry` (retry.ts lines 257-326): the
result path (lines 290-309) attaches `result.totalAttempts`; the catch path
(lines 310-323) — reached when the raced promise rejects, i.e. on abort,
timeout or the unexpected exit — sets `totalAttempts: undefined`.  With
`throwOnUnrecoveredError` the error is thrown instead (`Except.error`). -/
def executeWithRetry (ev : EngineEvent T E) (throwOnUnrecoveredError : Bool) :
    Except (EngineError E) (RetryResult T E) :=
  match ev with
  | .completed (.success v ta) => .ok ⟨true, some v, none, some ta, some ta⟩
  | .completed (.failure e ta) =>
    if throwOnUnrecoveredError then .error (.opErr e)
    else .ok ⟨false, none, some (.opErr e), none, some ta⟩
  | .completed .abortedThrow =>
    if throwOnUnrecoveredError then .error .abortedErr
    else .ok ⟨false, none, some .abortedErr, none, none⟩
  | .completed .unexpectedExit =>
    if throwOnUnrecoveredError then .error .unexpectedErr
    else .ok ⟨false, none, some .unexpectedErr, none, none⟩
  | .completed .outOfFuel =>
    if throwOnUnrecoveredError then .error .fuelErr
    else .ok ⟨false, none, some .fuelErr, none, none⟩
  | .timedOut =>
    if throwOnUnrecoveredError then .error .timedOutErr
    else .ok ⟨false, none, some .timedOutErr, none, none⟩

/-- `executeWithRetry` applied to a completed `handleRetry` run. -/
def executeWithRetryRun (op : Nat → RetryContext X → Except E T)
    (ab : Nat → Bool) (resolvers : List (ErrorResolverBase X E)) (ifuel : Nat)
    (throwOnUnrecoveredError : Bool) : Except (EngineError E) (RetryResult T E) :=
  executeWithRetry (.completed (handleRetry op ab resolvers ifuel))
    throwOnUnrecoveredError

/-- The `abort`-listener lists of the three signals involved in one
`executeWithRetry` call, plus the pending-timer flag.  Listener identities:
`0` is the merge listener `abortSignalAny` registers on
`timeoutController.signal`, `1` the one it registers on the external
`abortSignal`, `2` is `timeoutAbortListener`. -/
structure SignalListeners where
  timeoutSig : List Nat
  externalSig : List Nat
  mergedSig : List Nat
  timerActive : Bool
deriving DecidableEq, Repr

/-- `addEventListener`: registering an already-registered listener is a
no-op (DOM semantics). -/
def addListener (l : Nat) (s : List Nat) : List Nat :=
  if l ∈ s then s else s ++ [l]

/-- `removeEventListener`: removes the listener if registered, no-op
otherwise. -/
def removeListener (l : Nat) (s : List Nat) : List Nat := s.erase l

/-- The listener registrations performed by
`abortSignalAny([timeoutController.signal, externalAbortSignal])`
(retry.ts lines 191-211): for each non-undefined source a fresh
`abortListener` is pushed onto `abortListeners` and added to that source;
nothing is registered on the merged `abortController.signal`.  Returns the
updated state and the `abortListeners` array. -/
def abortSignalAnyListeners (hasExternal : Bool) (st : SignalListeners) :
    SignalListeners × List Nat :=
  let st1 := { st with timeoutSig := addListener 0 st.timeoutSig }
  if hasExternal then
    ({ st1 with externalSig := addListener 1 st1.externalSig }, [0, 1])
  else (st1, [0])

/-- The registrations done before `handleRetry` starts (retry.ts lines
229-277): `abortSignalAny` over the two sources, then — when
`overallTimeout` is set — the timer is started and `timeoutAbortListener`
is added to the merged `signal`. -/
def engineSetup (hasTimeout hasExternal : Bool) : SignalListeners × List Nat :=
  let p := abortSignalAnyListeners hasExternal ⟨[], [], [], false⟩
  if hasTimeout then
    ({ p.1 with timerActive := true, mergedSig := addListener 2 p.1.mergedSig },
      p.2)
  else p

/-- `cleanup` of `executeWithRetry` (retry.ts lines 239-255): when a
`timeoutAbortListener` exists it is removed from the merged `signal` and
from `timeoutController.signal`; the pending timer is cleared; then every
member of `abortListeners` is removed from the merged `signal` — the same
object `abortSignalAny` returned, not the source signals those listeners
were registered on. -/
def cleanup (hasTimeout : Bool) (abortListeners : List Nat)
    (st : SignalListeners) : SignalListeners :=
  let st1 :=
    if hasTimeout then
      { st with mergedSig := removeListener 2 st.mergedSig,
                timeoutSig := removeListener 2 st.timeoutSig }
    else st
  let st2 := { st1 with timerActive := false }
  { st2 with
    mergedSig := abortListeners.foldl (fun s l => removeListener l s) st2.mergedSig }

/-- Listener state after one full `executeWithRetry` call: setup, then
`cleanup` — which the source invokes twice on every exit path (once on the
result/catch path, lines 288/311, and once in `finally`, line 325). -/
def engineListenersFinal (hasTimeout hasExternal : Bool) : SignalListeners :=
  let p := engineSetup hasTimeout hasExternal
  cleanup hasTimeout p.2 (cleanup hasTimeout p.2 p.1)

/-- Fixture: resolver that always declines (`remainingAttempts = -1`,
what `delayErrorResolver` returns on a filter mismatch). -/
def declineResolver : ErrorResolverBase Unit Nat := fun _ _ _ => ⟨-1, false, ⟨none⟩⟩

/-- Fixture: resolver that always grants `n` further attempts. -/
def grantResolver (n : Int) : ErrorResolverBase Unit Nat :=
  fun _ _ _ => ⟨n, false, ⟨none⟩⟩

/-- Fixture: resolver that reports the error unrecoverable. -/
def unrecovResolver : ErrorResolverBase Unit Nat := fun _ _ _ => ⟨0, true, ⟨none⟩⟩

/-- Fixture: operation failing on every invocation, raising its invocation
index as the error. -/
def failingOp : Nat → RetryContext Unit → Except Nat Unit := fun i _ => .error i

/-- Fixture: abort signal that never fires. -/
def neverAborts : Nat → Bool := fun _ => false

/-- Fixture for the C6 counterexample: `maxDelayMs` present but `0`. -/
def zeroCapCfg : DelayPolicy Unit Unit :=
  { maxRetries := 5, initialDelayMs := some 100, maxDelayMs := some 0,
    backoffMultiplier := some 1 }

/-- C1, code-bug evaluation.  Chain of two resolvers, the first declining
with `remainingAttempts = -1` on the first error: the claim (and retry.ts's
own doc comment and README fallback example) say the engine advances to the
second resolver, but the advance check `resolverIndex >= length - 1`
(retry.ts line 175) already fires at the second-to-last position, so the
run fails after a single attempt and the second resolver is never invoked —
the result is identical whether the second resolver grants five more
attempts or declares the error unrecoverable.  The third conjunct shows the
same for a chain of three: the last resolver is again never reached. -/
theorem handleRetry_skips_last_resolver :
    handleRetry failingOp neverAborts [declineResolver, grantResolver 5] 10
      = .failure 0 1 ∧
    handleRetry failingOp neverAborts [declineResolver, unrecovResolver] 10
      = .failure 0 1 ∧
    handleRetry failingOp neverAborts
        [declineResolver, declineResolver, grantResolver 5] 10
      = .failure 1 2 :=
  ⟨rfl, rfl, rfl⟩

/-- C2, counterexample.  Two `success = false` results of `executeWithRetry`
whose `totalAttempts` is `undefined`: the catch path (retry.ts lines
317-323) sets `totalAttempts: undefined`, and it is taken whenever the
raced promise rejects — here once for an external abort signal that is
already fired when the run starts (`handleRetry` throws
`Error('Operation aborted')`), and once for the overall timeout firing. -/
theorem executeWithRetry_totalAttempts_undefined_on_throw_path :
    executeWithRetryRun failingOp (fun _ => true) [] 5 false
      = .ok ⟨false, none, some .abortedErr, none, none⟩ ∧
    executeWithRetry (T := Unit) (E := Nat) .timedOut false
      = .ok ⟨false, none, some .timedOutErr, none, none⟩ :=
  ⟨rfl, rfl⟩

/-- C2, amended.  Failures that `handleRetry` returns as result objects
carry the exact `totalAttempts`; successes carry it too; but the thrown
path (overall timeout, cancellation, unexpected exit) yields a result with
`totalAttempts = undefined`. -/
theorem executeWithRetry_totalAttempts_exact_on_result_path {T E : Type} :
    (∀ (e : E) (ta : Nat),
      executeWithRetry (T := T) (.completed (.failure e ta)) false
        = .ok ⟨false, none, some (.opErr e), none, some ta⟩)
  ∧ (∀ (v : T) (ta : Nat),
      executeWithRetry (E := E) (.completed (.success v ta)) false
        = .ok ⟨true, some v, none, some ta, some ta⟩)
  ∧ executeWithRetry (T := T) (E := E) .timedOut false
      = .ok ⟨false, none, some .timedOutErr, none, none⟩
  ∧ executeWithRetry (T := T) (E := E) (.completed .abortedThrow) false
      = .ok ⟨false, none, some .abortedErr, none, none⟩ :=
  ⟨fun _ _ => rfl, fun _ _ => rfl, rfl, rfl⟩

/-- C3, code-bug evaluation.  With `overallTimeout` set and an external
abort signal supplied, after setup and the (twice-invoked) `cleanup` the
pending timer is cleared and the merged signal is empty, but the merge
listeners that `abortSignalAny` registered on the two source signals are
still registered there: `cleanup` removes the members of `abortListeners`
from the merged `signal` — where they never were — instead of from the
source signals, so the listener on the long-lived external signal leaks. -/
theorem cleanup_leaks_source_listeners :
    engineListenersFinal true true
      = ⟨[0], [1], [], false⟩ ∧
    (engineListenersFinal true true).externalSig ≠ [] ∧
    (engineListenersFinal false true).externalSig ≠ [] :=
  ⟨rfl, by decide, by decide⟩

/-- Helper: one inner-loop step in which the operation succeeds returns the
success outcome at once; no further abort check, resolver call or operation
call occurs (the result does not depend on `ab` beyond index `checks`, nor
on `cur`). -/
theorem innerLoop_success {X E T : Type}
    (op : Nat → RetryContext X → Except E T) (ab : Nat → Bool)
    (cur : Option (ErrorResolverBase X E)) (ri len fuel : Nat)
    (remaining : Int) (retries ta checks : Nat) (ctx : RetryContext X) (v : T)
    (h0 : ab checks = false) (hop : op ta ctx = .ok v) :
    innerLoop op ab cur ri len (fuel + 1) remaining retries ta checks ctx
      = .done (.success v (ta + 1)) := by
  simp [innerLoop, h0, hop]

/-- Helper: one inner-loop step in which the operation fails and the current
resolver reports `unrecoverable` returns the failure outcome at once. -/
theorem innerLoop_unrecoverable {X E T : Type}
    (op : Nat → RetryContext X → Except E T) (ab : Nat → Bool)
    (r : ErrorResolverBase X E) (ri len fuel : Nat)
    (remaining : Int) (retries ta checks : Nat) (ctx : RetryContext X) (e : E)
    (h0 : ab checks = false) (h1 : ab (checks + 1) = false)
    (hop : op ta ctx = .error e)
    (hu : (r e retries ctx).unrecoverable = true) :
    innerLoop op ab (some r) ri len (fuel + 1) remaining retries ta checks ctx
      = .done (.failure e (ta + 1)) := by
  simp [innerLoop, h0, hop, h1, hu]

/-- Helper: when the first inner loop of an outer iteration ends in a
terminal outcome, that outcome is the outer loop's result. -/
theorem outerLoop_step_done {X E T : Type}
    (op : Nat → RetryContext X → Except E T) (ab : Nat → Bool)
    (resolvers : List (ErrorResolverBase X E)) (ifuel ofuel ri ta checks : Nat)
    (o : RetryOutcome T E)
    (h : innerLoop op ab (resolvers.get? ri) (ri + 1) resolvers.length ifuel
        1 0 ta checks ⟨none⟩ = .done o) :
    outerLoop op ab resolvers ifuel (ofuel + 1) ri ta checks = o := by
  simp only [outerLoop]
  rw [h]

/-- C5: a resolver returning `unrecoverable = true` terminates the run at
once with the raised error.  First conjunct: from any reachable inner-loop
state (any position, counters, context), when the operation fails, the
abort oracle is quiet at the two checks of this iteration and the current
resolver reports `unrecoverable`, the loop returns the failure immediately —
the conclusion holds for every oracle value beyond those two checks, every
`cur`-independent rest of the chain and every operation value at later
indices, so no further attempt and no later resolver can be involved.
Second conjunct: the same at the `handleRetry` entry point, for an
arbitrary tail of the chain. -/
theorem unrecoverable_fails_immediately {X E T : Type} :
    (∀ (op : Nat → RetryContext X → Except E T) (ab : Nat → Bool)
        (r : ErrorResolverBase X E) (ri len fuel : Nat) (remaining : Int)
        (retries ta checks : Nat) (ctx : RetryContext X) (e : E),
      ab checks = false → ab (checks + 1) = false → op ta ctx = .error e →
      (r e retries ctx).unrecoverable = true →
      innerLoop op ab (some r) ri len (fuel + 1) remaining retries ta checks ctx
        = .done (.failure e (ta + 1)))
  ∧ (∀ (op : Nat → RetryContext X → Except E T) (ab : Nat → Bool)
        (r : ErrorResolverBase X E) (rest : List (ErrorResolverBase X E))
        (e : E) (ifuel : Nat),
      ab 0 = false → ab 1 = false → op 0 ⟨none⟩ = .error e →
      (r e 0 ⟨none⟩).unrecoverable = true →
      handleRetry op ab (r :: rest) (ifuel + 1) = .failure e 1) := by
  constructor
  · intro op ab r ri len fuel remaining retries ta checks ctx e h0 h1 hop hu
    exact innerLoop_unrecoverable op ab r ri len fuel remaining retries ta checks ctx e h0 h1 hop hu
  · intro op ab r rest e ifuel h0 h1 hop hu
    exact outerLoop_step_done op ab (r :: rest) (ifuel + 1) (r :: rest).length
      0 0 0 _ (innerLoop_unrecoverable op ab r 1 (r :: rest).length ifuel 1 0
        0 0 ⟨none⟩ e h0 h1 hop hu)

/-- C5 witness: concrete immediate termination after a single attempt. -/
theorem unrecoverable_fails_immediately_witness :
    handleRetry failingOp neverAborts [unrecovResolver, grantResolver 5] 1
      = .failure 0 1 :=
  unrecoverable_fails_immediately.2 failingOp neverAborts unrecovResolver
    [grantResolver 5] 0 0 rfl rfl rfl rfl

/-- C10: an operation invocation that returns successfully makes the engine
return `{success, result, totalAttempts}` without consulting the abort
signal again.  First conjunct: from any inner-loop state, if the pre-attempt
check is quiet and the operation succeeds, the outcome is the success —
for every behaviour of the oracle at all later indices, i.e. cancellation
firing while the attempt is in flight does not turn the success into a
cancellation failure.  Second conjunct: the same at the `handleRetry`
entry point. -/
theorem success_returned_without_abort_check {X E T : Type} :
    (∀ (op : Nat → RetryContext X → Except E T) (ab : Nat → Bool)
        (cur : Option (ErrorResolverBase X E)) (ri len fuel : Nat)
        (remaining : Int) (retries ta checks : Nat) (ctx : RetryContext X)
        (v : T),
      ab checks = false → op ta ctx = .ok v →
      innerLoop op ab cur ri len (fuel + 1) remaining retries ta checks ctx
        = .done (.success v (ta + 1)))
  ∧ (∀ (op : Nat → RetryContext X → Except E T) (ab : Nat → Bool)
        (resolvers : List (ErrorResolverBase X E)) (ifuel : Nat) (v : T),
      ab 0 = false → op 0 ⟨none⟩ = .ok v →
      handleRetry op ab resolvers (ifuel + 1) = .success v 1) := by
  constructor
  · intro op ab cur ri len fuel remaining retries ta checks ctx v h0 hop
    exact innerLoop_success op ab cur ri len fuel remaining retries ta checks ctx v h0 hop
  · intro op ab resolvers ifuel v h0 hop
    exact outerLoop_step_done op ab resolvers (ifuel + 1) resolvers.length
      0 0 0 _ (innerLoop_success op ab (resolvers.get? 0) 1 resolvers.length
        ifuel 1 0 0 0 ⟨none⟩ v h0 hop)

/-- C10 witness: the abort oracle fires at every index after the pre-attempt
check (cancellation while the attempt is in flight); the success is still
returned. -/
theorem success_returned_without_abort_check_witness :
    handleRetry (fun _ (_ : RetryContext Unit) => (.ok 42 : Except Nat Nat))
      (fun n => decide (0 < n)) [] 1 = .success 42 1 :=
  success_returned_without_abort_check.2 (fun _ _ => .ok 42)
    (fun n => decide (0 < n)) [] 0 42 rfl rfl

/-- Helper: with a single always-matching delayed resolver of
`maxRetries = N`, from the inner-loop state reached after `k` failed
attempts (`retries = totalAttempts = k`, any nonzero `remaining`, the fresh
context), an always-failing operation drives the loop to the failure
outcome raised at attempt `N + 1`. -/
theorem innerLoop_delay_exhausts {X E T : Type}
    (cfg : DelayPolicy X E) (filt : Option (FilterArg X E)) (N : Nat)
    (ef : Nat → RetryContext X → E) (ab : Nat → Bool)
    (hN : cfg.maxRetries = (N : Int))
    (hab : ∀ n, ab n = false)
    (hm : ∀ e a c, delayMatches filt e a c = true) :
    ∀ (ifuel k : Nat) (remaining : Int) (checks : Nat),
      k ≤ N → N - k < ifuel → remaining ≠ 0 →
      innerLoop (T := T) (fun i c => .error (ef i c)) ab
          (some (delayErrorResolver cfg filt)) 1 1 ifuel remaining k k checks
          ⟨none⟩
        = .done (.failure (ef N ⟨none⟩) (N + 1)) := by
  intro ifuel
  induction ifuel with
  | zero => intro k remaining checks hk hfuel hrem; omega
  | succ m ih =>
    intro k remaining checks hk hfuel hrem
    have hres : delayErrorResolver cfg filt (ef k ⟨none⟩) k ⟨none⟩
        = ⟨(N : Int) - (k : Int), false, ⟨none⟩⟩ := by
      simp [delayErrorResolver, delayErrorResolverFull, hm, hN]
    rcases Nat.lt_or_ge k N with hkN | hkN
    · have hcond : ¬((N : Int) - (k : Int) ≤ 0 ∧ 1 - 1 ≤ 1) := by
        intro hc
        omega
      have hpos : (0 : Int) < (N : Int) - (k : Int) := by omega
      simp only [innerLoop, hab, Bool.false_eq_true, if_false, hres, hrem]
      simp only [ite_false, if_neg hcond, if_pos hpos]
      have := ih (k + 1) ((N : Int) - (k : Int)) (checks + 2)
        (by omega) (by omega) (by omega)
      simpa using this
    · have hkeq : k = N := Nat.le_antisymm hk hkN
      rw [← hkeq]
      have hc1 : (N : Int) - (k : Int) ≤ 0 := by omega
      simp [innerLoop, hab, hres, hrem, hc1]

/-- C4: with a chain of exactly one delayed resolver of `maxRetries = N`
whose filter always matches, an always-failing operation yields the failure
outcome with `totalAttempts = N + 1` (hence `success = false`), and the
delayed resolver's returned budget at attempt `a` is `maxRetries - a`. -/
theorem delayedResolver_exhausts_after_maxRetries {X E T : Type}
    (cfg : DelayPolicy X E) (filt : Option (FilterArg X E)) (N : Nat)
    (ef : Nat → RetryContext X → E) (ab : Nat → Bool) (ifuel : Nat)
    (hN : cfg.maxRetries = (N : Int))
    (hab : ∀ n, ab n = false)
    (hm : ∀ e a c, delayMatches filt e a c = true)
    (hfuel : N < ifuel) :
    handleRetry (T := T) (fun i c => .error (ef i c)) ab
        [delayErrorResolver cfg filt] ifuel
      = .failure (ef N ⟨none⟩) (N + 1)
  ∧ ∀ e a c, (delayErrorResolver cfg filt e a c).remainingAttempts
      = cfg.maxRetries - (a : Int) := by
  constructor
  · exact outerLoop_step_done _ ab [delayErrorResolver cfg filt] ifuel
      [delayErrorResolver cfg filt].length 0 0 0 _
      (innerLoop_delay_exhausts cfg filt N ef ab hN hab hm ifuel 0 1 0
        (Nat.zero_le N) (by omega) (by omega))
  · intro e a c
    simp [delayErrorResolver, delayErrorResolverFull, hm]

/-- C4 witness: `maxRetries = 2`, always-failing operation, no filter:
3 attempts, then failure with the error raised on the last attempt. -/
theorem delayedResolver_exhausts_after_maxRetries_witness :
    handleRetry (fun i (_ : RetryContext Unit) => (Except.error i : Except Nat Unit))
        (fun _ => false)
        [delayErrorResolver ({ maxRetries := 2 } : DelayPolicy Unit Nat) none] 3
      = .failure 2 3 :=
  (delayedResolver_exhausts_after_maxRetries
    ({ maxRetries := 2 } : DelayPolicy Unit Nat) none 2 (fun i _ => i)
    (fun _ => false) 3 rfl (fun _ => rfl) (fun _ _ _ => rfl) (by omega)).1

/-- C6, counterexample.  With `maxDelayMs` set to `0` (and
`initialDelayMs = 100`, `backoffMultiplier = 1`, no `customDelay`), the
claim's formula gives `min(100 * 1 * 1, 0) = 0`, but the source's truthiness
test `configuration.maxDelayMs ? ... : ...` treats `0` as unset and sleeps
the uncapped `100`. -/
theorem zeroCap_delay_not_min :
    (delayErrorResolverFull zeroCapCfg none () 0 ⟨none⟩).2 = some 100 ∧
    min (delayFormula zeroCapCfg 0) 0 = 0 ∧ ((100 : ℚ)) ≠ 0 := by
  refine ⟨by norm_num [delayErrorResolverFull, delayMatches, computeDelay,
    sleepMs, delayFormula, zeroCapCfg], ?_, by norm_num⟩
  norm_num [delayFormula, zeroCapCfg]

/-- C6, amended: on a filter match the slept delay is the clamped
`customDelay` result when one is supplied; otherwise the clamped
`min(initialDelayMs * (attempt+1) * backoffMultiplier, maxDelayMs)` when
`maxDelayMs` is set and nonzero; otherwise (unset, or `0` which JavaScript
truthiness treats as unset) the clamped uncapped product; and the clamp
sends every negative computed delay to `0` before sleeping. -/
theorem delayedResolver_delay_formula {X E : Type} :
    (∀ (cfg : DelayPolicy X E) (filt : Option (FilterArg X E)) e a c f,
      delayMatches filt e a c = true → cfg.customDelay = some f →
      (delayErrorResolverFull cfg filt e a c).2 = some (sleepMs (f a e c)))
  ∧ (∀ (cfg : DelayPolicy X E) (filt : Option (FilterArg X E)) e a c m,
      delayMatches filt e a c = true → cfg.customDelay = none →
      cfg.maxDelayMs = some m → m ≠ 0 →
      (delayErrorResolverFull cfg filt e a c).2
        = some (sleepMs (min (delayFormula cfg a) m)))
  ∧ (∀ (cfg : DelayPolicy X E) (filt : Option (FilterArg X E)) e a c,
      delayMatches filt e a c = true → cfg.customDelay = none →
      (cfg.maxDelayMs = none ∨ cfg.maxDelayMs = some 0) →
      (delayErrorResolverFull cfg filt e a c).2
        = some (sleepMs (delayFormula cfg a)))
  ∧ (∀ ms : ℚ, ms < 0 → sleepMs ms = 0)
  ∧ (∀ ms : ℚ, 0 ≤ sleepMs ms) := by
  refine ⟨?_, ?_, ?_, ?_, ?_⟩
  · intro cfg filt e a c f hm hc
    simp [delayErrorResolverFull, hm, computeDelay, hc]
  · intro cfg filt e a c m hm hc hM hne
    simp [delayErrorResolverFull, hm, computeDelay, hc, hM, hne]
  · intro cfg filt e a c hm hc hM
    rcases hM with hM | hM <;>
      simp [delayErrorResolverFull, hm, computeDelay, hc, hM]
  · intro ms h
    simp [sleepMs, h]
  · intro ms
    by_cases h : ms < 0 <;> simp [sleepMs, h]
    linarith

/-- C6 witness: `initialDelayMs = 100`, `backoffMultiplier = 1`,
`maxDelayMs = 150`, attempt 1: the slept delay is
`min(100 * 2 * 1, 150) = 150`. -/
theorem delayedResolver_delay_formula_witness :
    (delayErrorResolverFull
        ({ maxRetries := 3, initialDelayMs := some 100, maxDelayMs := some 150,
           backoffMultiplier := some 1 } : DelayPolicy Unit Unit)
        none () 1 ⟨none⟩).2 = some 150 :=
  (delayedResolver_delay_formula.2.1
    ({ maxRetries := 3, initialDelayMs := some 100, maxDelayMs := some 150,
       backoffMultiplier := some 1 } : DelayPolicy Unit Unit)
    none () 1 ⟨none⟩ 150 rfl rfl rfl (by norm_num)).trans
    (by norm_num [sleepMs, delayFormula])

/-- C7: `allFilters` is true iff every member passes, `anyFilters` iff some
member passes; the empty list gives `true` for `all` and `false` for `any`;
and once a member decides the result (`false` for `all`, `true` for `any`)
the members after it are irrelevant — the combinator built from the
truncated list agrees, which is the observable content of the left-to-right
short-circuit. -/
theorem filter_combinator_semantics {X E : Type} :
    (∀ (e : E) (a : Nat) (c : RetryContext X),
      (allFilters ([] : List (FilterArg X E))).canHandle e a c = true)
  ∧ (∀ (e : E) (a : Nat) (c : RetryContext X),
      (anyFilters ([] : List (FilterArg X E))).canHandle e a c = false)
  ∧ (∀ (fs : List (FilterArg X E)) (e : E) (a : Nat) (c : RetryContext X),
      (allFilters fs).canHandle e a c = true ↔
        ∀ f ∈ fs, applyFilterArg f e a c = true)
  ∧ (∀ (fs : List (FilterArg X E)) (e : E) (a : Nat) (c : RetryContext X),
      (anyFilters fs).canHandle e a c = true ↔
        ∃ f ∈ fs, applyFilterArg f e a c = true)
  ∧ (∀ (pre post : List (FilterArg X E)) (f : FilterArg X E) (e : E)
        (a : Nat) (c : RetryContext X),
      applyFilterArg f e a c = false →
      (allFilters (pre ++ f :: post)).canHandle e a c
        = (allFilters (pre ++ [f])).canHandle e a c)
  ∧ (∀ (pre post : List (FilterArg X E)) (f : FilterArg X E) (e : E)
        (a : Nat) (c : RetryContext X),
      applyFilterArg f e a c = true →
      (anyFilters (pre ++ f :: post)).canHandle e a c
        = (anyFilters (pre ++ [f])).canHandle e a c) := by
  refine ⟨fun _ _ _ => rfl, fun _ _ _ => rfl, ?_, ?_, ?_, ?_⟩
  · intro fs e a c
    simp [allFilters, List.all_eq_true]
  · intro fs e a c
    simp [anyFilters, List.any_eq_true]
  · intro pre post f e a c hf
    simp [allFilters, List.all_append, hf]
  · intro pre post f e a c hf
    simp [anyFilters, List.any_append, hf]

/-- C7 witness: a member returning `false` decides `allFilters` regardless
of what follows it. -/
theorem filter_combinator_semantics_witness :
    (allFilters ([FilterArg.fn (fun _ _ _ => true),
        FilterArg.obj ⟨fun _ _ _ => false⟩,
        FilterArg.fn (fun _ _ _ => true)] :
        List (FilterArg Unit Nat))).canHandle 0 0 ⟨none⟩
      = (allFilters ([FilterArg.fn (fun _ _ _ => true),
          FilterArg.obj ⟨fun _ _ _ => false⟩] :
          List (FilterArg Unit Nat))).canHandle 0 0 ⟨none⟩ :=
  filter_combinator_semantics.2.2.2.2.1 [.fn fun _ _ _ => true]
    [.fn fun _ _ _ => true] (.obj ⟨fun _ _ _ => false⟩) 0 0 ⟨none⟩ rfl

/-- C8 (the definition is modelled from the spec, see `noneFilters`):
`noneFilters` equals the pointwise negation of `anyFilters`, is true iff no
member passes, is true on the empty list, and a member returning `true`
decides it regardless of the members after it (dual short-circuit). -/
theorem noneFilters_negation_of_any {X E : Type} :
    (∀ (fs : List (FilterArg X E)) (e : E) (a : Nat) (c : RetryContext X),
      (noneFilters fs).canHandle e a c = !((anyFilters fs).canHandle e a c))
  ∧ (∀ (fs : List (FilterArg X E)) (e : E) (a : Nat) (c : RetryContext X),
      (noneFilters fs).canHandle e a c = true ↔
        ∀ f ∈ fs, applyFilterArg f e a c = false)
  ∧ (∀ (e : E) (a : Nat) (c : RetryContext X),
      (noneFilters ([] : List (FilterArg X E))).canHandle e a c = true)
  ∧ (∀ (pre post : List (FilterArg X E)) (f : FilterArg X E) (e : E)
        (a : Nat) (c : RetryContext X),
      applyFilterArg f e a c = true →
      (noneFilters (pre ++ f :: post)).canHandle e a c
        = (noneFilters (pre ++ [f])).canHandle e a c) := by
  refine ⟨fun _ _ _ _ => rfl, ?_, fun _ _ _ => rfl, ?_⟩
  · intro fs e a c
    simp [noneFilters, List.any_eq_true]
  · intro pre post f e a c hf
    simp [noneFilters, List.any_append, hf]

/-- C8 witness: a member returning `true` decides `noneFilters` regardless
of what follows it. -/
theorem noneFilters_negation_of_any_witness :
    (noneFilters ([FilterArg.fn (fun _ _ _ => true),
        FilterArg.obj ⟨fun _ _ _ => false⟩] :
        List (FilterArg Unit Nat))).canHandle 0 0 ⟨none⟩
      = (noneFilters ([FilterArg.fn (fun _ _ _ => true)] :
          List (FilterArg Unit Nat))).canHandle 0 0 ⟨none⟩ :=
  noneFilters_negation_of_any.2.2.2 [] [FilterArg.obj ⟨fun _ _ _ => false⟩]
    (.fn fun _ _ _ => true) 0 0 ⟨none⟩ rfl

/-- C9: the delayed resolver's returned context is `{data: undefined}` on
the matched branch (first conjunct) — and in fact on both branches (second
conjunct) — so context data carried into it is always discarded. -/
theorem delayedResolver_discards_context {X E : Type} :
    (∀ (cfg : DelayPolicy X E) (filt : Option (FilterArg X E)) e a c,
      delayMatches filt e a c = true →
      (delayErrorResolverFull cfg filt e a c).1.context = ⟨none⟩)
  ∧ (∀ (cfg : DelayPolicy X E) (filt : Option (FilterArg X E)) e a c,
      (delayErrorResolverFull cfg filt e a c).1.context = ⟨none⟩) := by
  constructor
  · intro cfg filt e a c hm
    simp [delayErrorResolverFull, hm]
  · intro cfg filt e a c
    rcases Bool.eq_false_or_eq_true (delayMatches filt e a c) with hm | hm <;>
      simp [delayErrorResolverFull, hm]

/-- C9 witness: incoming context data `7` is discarded. -/
theorem delayedResolver_discards_context_witness :
    (delayErrorResolverFull ({ maxRetries := 3 } : DelayPolicy Nat Nat) none
        0 0 ⟨some 7⟩).1.context = ⟨none⟩ :=
  delayedResolver_discards_context.1 ({ maxRetries := 3 } : DelayPolicy Nat Nat)
    none 0 0 ⟨some 7⟩ rfl
